import Mathlib

/-!
Shallow embedding of `src/main.rs` of the monitor program.

The program polls a fleet of cloud instances and a queue-health endpoint,
renders a fleet snapshot, optionally compares it against a persisted
baseline, and sends at most one notification per run.  We embed the
decision-making code as pure Lean functions; AWS SDK record types are
modelled as structures with `Option` fields exactly where the SDK exposes
optional accessors, and every Rust `unwrap()` on such a field is modelled
as propagating `none` (a panic) through an `Option`/`Except` result.
Filesystem effects of `InstanceChecker::check` are modelled with an
explicit file-state input and an event trace output.
-/

/-- AWS `InstanceStateName` (lifecycle state enum). -/
inductive StateName where
  | pending
  | running
  | shuttingDown
  | terminated
  | stopping
  | stopped
deriving DecidableEq, Repr

/-- AWS `SummaryStatus` (instance/system status enum). -/
inductive SummaryStatus where
  | ok
  | impaired
  | insufficientData
  | notApplicable
  | initializing
deriving DecidableEq, Repr

/-- AWS `InstanceState`: the SDK accessor `name()` returns an `Option`. -/
structure InstanceState where
  name : Option StateName
deriving DecidableEq, Repr

/-- AWS `InstanceStatusSummary`: the SDK accessor `status()` returns an `Option`. -/
structure InstanceStatusSummary where
  status : Option SummaryStatus
deriving DecidableEq, Repr

/-- AWS `InstanceStatus` record, one per instance id, as consumed by
`get_server_status` (accessors `instance_id`, `instance_state`,
`instance_status`, `system_status`, all optional in the SDK). -/
structure InstanceStatus where
  instance_id : Option String
  instance_state : Option InstanceState
  instance_status : Option InstanceStatusSummary
  system_status : Option InstanceStatusSummary
deriving DecidableEq, Repr

/-- AWS `Tag`: both `key()` and `value()` are optional in the SDK. -/
structure Tag where
  key : Option String
  value : Option String
deriving DecidableEq, Repr

/-- AWS `Instance` description record: an optional id and a tag list. -/
structure Instance where
  instance_id : Option String
  tags : List Tag
deriving DecidableEq, Repr

/-- AWS `Reservation`: a group of instance description records, as returned
by `describe_instances`. -/
structure Reservation where
  instances : List Instance
deriving DecidableEq, Repr

/-- `ServerStatus` from `src/main.rs` lines 282-289. -/
structure ServerStatus where
  id : String
  tags : List Tag
  state : Option InstanceState
  summary : Option InstanceStatusSummary
  system_summary : Option InstanceStatusSummary
deriving DecidableEq, Repr

/-- `ServerStatus::name` (lines 292-301): linear scan of the tag list for a
tag whose key is `"Name"`; on a hit the tag value is `unwrap()`ed (a `none`
value is a panic, modelled as the `none` result); when the scan falls
through, the literal sentinel `"UNAMED"` is returned. -/
def nameScan : List Tag → Option String
  | [] => some "UNAMED"
  | t :: rest => if t.key = some "Name" then t.value else nameScan rest

/-- `ServerStatus::name` applied to the receiver's tags. -/
def ServerStatus.name (s : ServerStatus) : Option String :=
  nameScan s.tags

/-- The `chunk_by(|r| r.instance_id().unwrap())` + first-of-each-group step
of `get_server_status` (lines 239-245): consecutive records with equal ids
form one group and only the group's first record survives, paired with its
id.  `prev` carries the id of the previous record (`none` at the start);
a record with an absent id is `unwrap()` panicking, modelled as `none`. -/
def groupFirsts : Option String → List InstanceStatus → Option (List (String × InstanceStatus))
  | _, [] => some []
  | prev, r :: rest =>
    match r.instance_id with
    | none => none
    | some id =>
      match groupFirsts (some id) rest with
      | none => none
      | some out => if prev = some id then some out else some ((id, r) :: out)

/-- `collect::<HashMap<_, _>>()`: pairs are inserted in iteration order and
a later insert for the same key overwrites the earlier one.  The map is
modelled as its lookup function. -/
def collectMap (l : List (String × InstanceStatus)) : String → Option InstanceStatus :=
  l.foldl (fun m kv => fun x => if x = kv.1 then some kv.2 else m x) (fun _ => none)

/-- `described_status_by_id` (lines 239-245): group consecutive status
records by id, keep the first of each group, collect into a hash map. -/
def describedStatusById (statuses : List InstanceStatus) : Option (String → Option InstanceStatus) :=
  (groupFirsts none statuses).map collectMap

/-- The `servers.push(ServerStatus { .. })` body (lines 254-260): the three
status fields are `unwrap()`ed (any absent field is a panic, modelled as
`none`) and stored re-wrapped in `Some`. -/
def toServerStatus (inst : Instance) (id : String) (status : InstanceStatus) : Option ServerStatus :=
  match status.instance_state, status.instance_status, status.system_status with
  | some st, some su, some sy =>
    some { id := id, tags := inst.tags, state := some st, summary := some su,
           system_summary := some sy }
  | _, _, _ => none

/-- The inner loop of `get_server_status` (lines 250-262) over the
instances of one reservation: `instance_id` is `unwrap()`ed, the id is
looked up in the status map, an unmatched instance is skipped, a matched
one is pushed. -/
def buildFromInstances (m : String → Option InstanceStatus) : List Instance → Option (List ServerStatus)
  | [] => some []
  | inst :: rest =>
    match inst.instance_id with
    | none => none
    | some id =>
      match m id with
      | none => buildFromInstances m rest
      | some status =>
        match toServerStatus inst id status with
        | none => none
        | some s =>
          match buildFromInstances m rest with
          | none => none
          | some l => some (s :: l)

/-- The outer loop of `get_server_status` (lines 249-263) over
reservations, appending each reservation's matched servers in order. -/
def buildServers (m : String → Option InstanceStatus) : List Reservation → Option (List ServerStatus)
  | [] => some []
  | r :: rest =>
    match buildFromInstances m r.instances, buildServers m rest with
    | some a, some b => some (a ++ b)
    | _, _ => none

/-- `get_server_status` (lines 222-266) after the two fetches: build the
status map, then correlate description records against it. -/
def get_server_status (statuses : List InstanceStatus) (resvs : List Reservation) :
    Option (List ServerStatus) :=
  match describedStatusById statuses with
  | none => none
  | some m => buildServers m resvs

/-- `QueueChecker::check` threshold logic (lines 126-139): a pending
warning when `pending > 500`, then an error warning when `errors > 500`,
each carrying the literal count. -/
def queueCheck (pending errors : Nat) : List String :=
  (if pending > 500 then ["WARNING: Queue length is " ++ toString pending] else []) ++
  (if errors > 500 then ["WARNING: Error queue length is " ++ toString errors] else [])

/-- The state of the `/tmp/monitor-state.txt` collaborator for one run:
what a read would return (`none` = absent or unreadable, lines 268-279)
and whether the open/write/flush sequence (lines 199-207) succeeds. -/
structure Fs where
  content : Option String
  writeOk : Bool
deriving DecidableEq, Repr

/-- Filesystem events performed by `InstanceChecker::check`. -/
inductive FsEvent where
  | readEv : FsEvent
  | writeEv : String → FsEvent
deriving DecidableEq, Repr

/-- The change verdict computed at lines 192-196: absent previous state is
`modified = true`; otherwise `modified` iff the previous rendering differs
from the current paragraph. -/
def changeVerdict : Option String → String → Bool
  | some previous, paragraph => previous != paragraph
  | none, _ => true

/-- The decision tail of `InstanceChecker::check` (lines 188-219) as a
function of the flags, the rendered paragraph and the file state.  Returns
the Rust `Result<Option<String>>` (`Except.error ()` models the `?` on a
failed write at lines 199-207) together with the trace of filesystem
events performed. -/
def checkDecide (email only_changes : Bool) (paragraph : String) (fs : Fs) :
    Except Unit (Option String) × List FsEvent :=
  let notifying := email && !only_changes
  if only_changes then
    let changed := changeVerdict fs.content paragraph
    if changed && !fs.writeOk then
      (Except.error (), [FsEvent.readEv])
    else
      let events := if changed then [FsEvent.readEv, FsEvent.writeEv paragraph]
                    else [FsEvent.readEv]
      let modified := changed && email
      (Except.ok (if notifying || modified then some paragraph else none), events)
  else
    let modified := false
    (Except.ok (if notifying || modified then some paragraph else none), [])

/-- The aggregation in `main` (lines 66-79): an `Ok(Some(m))` fleet result
pushes `m`, an `Ok(None)` or `Err` fleet result contributes nothing (the
error is only printed), then an `Ok` queue result extends the messages and
an `Err` queue result contributes nothing. -/
def mainMessages (instanceResult : Except Unit (Option String))
    (queueResult : Except Unit (List String)) : List String :=
  (match instanceResult with
   | Except.ok (some m) => [m]
   | Except.ok none => []
   | Except.error _ => []) ++
  (match queueResult with
   | Except.ok ms => ms
   | Except.error _ => [])

/-- `Notification::send` (lines 42-57) dispatches iff the message list is
non-empty. -/
def Notification.sends (messages : List String) : Bool :=
  !messages.isEmpty

/-- `Notification::send` body: `messages.join("\n")`. -/
def Notification.body (messages : List String) : String :=
  String.intercalate "\n" messages

/-! ### Helper lemmas about the tag-name scan -/

theorem nameScan_of_no_name (tags : List Tag) (h : ∀ t ∈ tags, t.key ≠ some "Name") :
    nameScan tags = some "UNAMED" := by
  induction tags with
  | nil => rfl
  | cons t rest ih =>
    have hk : t.key ≠ some "Name" := h t (List.mem_cons_self t rest)
    simp only [nameScan, if_neg hk]
    exact ih (fun u hu => h u (List.mem_cons_of_mem t hu))

theorem nameScan_first_name (pre : List Tag) (t : Tag) (post : List Tag)
    (hpre : ∀ u ∈ pre, u.key ≠ some "Name") (hk : t.key = some "Name") :
    nameScan (pre ++ t :: post) = t.value := by
  induction pre with
  | nil => simp [nameScan, hk]
  | cons u rest ih =>
    have hu : u.key ≠ some "Name" := hpre u (List.mem_cons_self u rest)
    simp only [List.cons_append, nameScan, if_neg hu]
    exact ih (fun v hv => hpre v (List.mem_cons_of_mem u hv))

theorem nameScan_total (tags : List Tag)
    (h : ∀ t ∈ tags, t.key = some "Name" → (t.value).isSome = true) :
    (nameScan tags).isSome = true := by
  induction tags with
  | nil => rfl
  | cons t rest ih =>
    by_cases hk : t.key = some "Name"
    · simp only [nameScan, if_pos hk]
      exact h t (List.mem_cons_self t rest) hk
    · simp only [nameScan, if_neg hk]
      exact ih (fun u hu hk' => h u (List.mem_cons_of_mem t hu) hk')

/-! ### Claims about name resolution (C4, C10) -/

/-- Claim C4, counterexample: the sentinel returned for a tagless instance
is the literal `"UNAMED"`, not `"UNNAMED"` as the claim states. -/
theorem name_sentinel_counterexample :
    ServerStatus.name
      { id := "i-1", tags := [], state := none, summary := none, system_summary := none } =
      some "UNAMED" ∧ "UNAMED" ≠ "UNNAMED" :=
  ⟨rfl, by decide⟩

/-- Claim C4 (amended): name resolution scans the tag list in order for a
tag whose key is exactly `"Name"`; when no such tag exists the sentinel
`"UNAMED"` is returned; the first `"Name"` tag wins and its (present)
value is returned even when further `"Name"` tags follow; and when every
`"Name"` tag carries a value, resolution never fails. -/
theorem serverStatus_name_resolution (s : ServerStatus) :
    ((∀ t ∈ s.tags, t.key ≠ some "Name") → s.name = some "UNAMED") ∧
    (∀ pre t post v, s.tags = pre ++ t :: post → (∀ u ∈ pre, u.key ≠ some "Name") →
      t.key = some "Name" → t.value = some v → s.name = some v) ∧
    ((∀ t ∈ s.tags, t.key = some "Name" → (t.value).isSome = true) →
      (s.name).isSome = true) := by
  refine ⟨fun h => nameScan_of_no_name s.tags h, fun pre t post v hsplit hpre hk hv => ?_,
    fun h => nameScan_total s.tags h⟩
  show nameScan s.tags = some v
  rw [hsplit, nameScan_first_name pre t post hpre hk, hv]

/-- Witness for `serverStatus_name_resolution` at a concrete instance with
two `"Name"` tags: the first one wins. -/
theorem serverStatus_name_resolution_witness :
    ServerStatus.name
      { id := "i-1",
        tags := [{ key := some "Env", value := some "prod" },
                 { key := some "Name", value := some "web" },
                 { key := some "Name", value := some "db" }],
        state := none, summary := none, system_summary := none } = some "web" :=
  (serverStatus_name_resolution _).2.1
    [{ key := some "Env", value := some "prod" }]
    { key := some "Name", value := some "web" }
    [{ key := some "Name", value := some "db" }] "web" rfl (by decide) rfl rfl

/-- Claim C10, counterexample: an instance whose tag list does contain a
`"Name"`-keyed tag with an absent value, yet whose name resolution
succeeds (the valued `"Name"` tag comes first), refuting the claim that
resolution fails for every such instance. -/
theorem name_absent_value_counterexample :
    ServerStatus.name
      { id := "i-1",
        tags := [{ key := some "Name", value := some "x" },
                 { key := some "Name", value := none }],
        state := none, summary := none, system_summary := none } = some "x" ∧
    List.any [Tag.mk (some "Name") (some "x"), Tag.mk (some "Name") none]
      (fun t => t.key == some "Name" && t.value == none) = true :=
  ⟨rfl, by decide⟩

/-- Claim C10 (amended): name resolution fails exactly through the
unguarded value unwrap of the FIRST tag whose key is `"Name"`: when that
tag's value is absent the result is the panic (`none`), and under the
precondition that every `"Name"` tag carries a value resolution is
total. -/
theorem name_unwrap_panic_condition (s : ServerStatus) :
    (∀ pre t post, s.tags = pre ++ t :: post → (∀ u ∈ pre, u.key ≠ some "Name") →
      t.key = some "Name" → t.value = none → s.name = none) ∧
    ((∀ t ∈ s.tags, t.key = some "Name" → (t.value).isSome = true) →
      (s.name).isSome = true) := by
  refine ⟨fun pre t post hsplit hpre hk hv => ?_, fun h => nameScan_total s.tags h⟩
  show nameScan s.tags = none
  rw [hsplit, nameScan_first_name pre t post hpre hk, hv]

/-- Witness for `name_unwrap_panic_condition`: a lone valueless `"Name"`
tag makes name resolution panic. -/
theorem name_unwrap_panic_condition_witness :
    ServerStatus.name
      { id := "i-2", tags := [{ key := some "Name", value := none }],
        state := none, summary := none, system_summary := none } = none :=
  (name_unwrap_panic_condition _).1 [] { key := some "Name", value := none } [] rfl
    (by decide) rfl rfl

/-! ### Claim about the change verdict (C2) -/

/-- Claim C2: the change verdict is a three-case function of
(previous, current): absent previous is always `changed`; equal strings
are `unchanged`; any difference is `changed`. -/
theorem changeVerdict_three_cases :
    (∀ current : String, changeVerdict none current = true) ∧
    (∀ x : String, changeVerdict (some x) x = false) ∧
    (∀ x y : String, x ≠ y → changeVerdict (some x) y = true) := by
  refine ⟨fun _ => rfl, fun x => ?_, fun x y h => ?_⟩
  · simp [changeVerdict]
  · simp [changeVerdict, h]

/-- Witness for `changeVerdict_three_cases` at concrete strings. -/
theorem changeVerdict_three_cases_witness :
    changeVerdict none "p" = true ∧ changeVerdict (some "p") "p" = false ∧
    changeVerdict (some "a") "b" = true :=
  ⟨changeVerdict_three_cases.1 "p", changeVerdict_three_cases.2.1 "p",
   changeVerdict_three_cases.2.2 "a" "b" (by decide)⟩

/-! ### Claim about the queue thresholds (C6) -/

/-- Claim C6: `pending = 500` emits no warning and `pending = 501` emits
exactly one pending warning containing the literal count; the same holds
for the error threshold; at `pending = 600` and `errors = 600` exactly two
warnings are emitted with the pending warning first. -/
theorem queueCheck_thresholds :
    queueCheck 500 0 = [] ∧
    queueCheck 501 0 = ["WARNING: Queue length is 501"] ∧
    ("501".toList <:+: ("WARNING: Queue length is 501").toList) ∧
    queueCheck 0 500 = [] ∧
    queueCheck 0 501 = ["WARNING: Error queue length is 501"] ∧
    ("501".toList <:+: ("WARNING: Error queue length is 501").toList) ∧
    queueCheck 600 600 =
      ["WARNING: Queue length is 600", "WARNING: Error queue length is 600"] := by
  refine ⟨by decide, by decide, by decide, by decide, by decide, by decide, by decide⟩

/-! ### Claim about single-source failure in main (C3) -/

/-- Claim C3, counterexample: with the fleet fetch failing and the queue
check succeeding with one warning, `main` still dispatches a notification
whose whole content is the queue contribution — a partial notification IS
sent, refuting the claim that the run aborts. -/
theorem main_partial_notification_counterexample :
    mainMessages (Except.error ()) (Except.ok ["WARNING: Queue length is 600"]) =
      ["WARNING: Queue length is 600"] ∧
    Notification.sends ["WARNING: Queue length is 600"] = true ∧
    Notification.body ["WARNING: Queue length is 600"] = "WARNING: Queue length is 600" :=
  ⟨rfl, rfl, rfl⟩

/-- Claim C3 (amended): when one data source fails, its error is only
printed and its contribution dropped; the run continues and a notification
carrying only the other source's contribution is dispatched whenever that
contribution is non-empty. -/
theorem main_continues_on_single_source_failure (m : String) (qs : List String) :
    mainMessages (Except.error ()) (Except.ok qs) = qs ∧
    mainMessages (Except.ok (some m)) (Except.error ()) = [m] ∧
    Notification.sends (mainMessages (Except.ok (some m)) (Except.error ())) = true :=
  ⟨rfl, rfl, rfl⟩

/-! ### Claims about the notification decision and its effects (C1, C8, C9) -/

/-- Claim C1: the fleet summary paragraph is included in the outgoing
notification exactly when email is requested and change-tracking is
disabled, or change-tracking is enabled, the change verdict is `changed`,
and email is requested; under every other flag combination the fleet
contributes no notification content.  (Assumes the baseline write
succeeds; a failed write is claim C9's concern.) -/
theorem fleet_notification_condition (email oc : Bool) (p : String) (fs : Fs)
    (qs : List String) (hw : fs.writeOk = true) :
    (((email = true ∧ oc = false) ∨
      (oc = true ∧ changeVerdict fs.content p = true ∧ email = true)) →
        mainMessages (checkDecide email oc p fs).1 (Except.ok qs) = p :: qs) ∧
    (¬((email = true ∧ oc = false) ∨
      (oc = true ∧ changeVerdict fs.content p = true ∧ email = true)) →
        mainMessages (checkDecide email oc p fs).1 (Except.ok qs) = qs) := by
  cases hc : changeVerdict fs.content p <;>
    cases email <;> cases oc <;>
      simp [checkDecide, mainMessages, hw, hc]

/-- Witness for `fleet_notification_condition`: email requested, tracking
disabled, so the paragraph leads the notification. -/
theorem fleet_notification_condition_witness :
    mainMessages (checkDecide true false "line" (Fs.mk none true)).1 (Except.ok []) =
      ["line"] :=
  (fleet_notification_condition true false "line" (Fs.mk none true) [] rfl).1
    (Or.inl ⟨rfl, rfl⟩)

/-- Claim C8: with change-tracking enabled the state file is read and is
(over)written with the new rendering exactly when the verdict is
`changed`, the verdict still being returned afterwards; with no change
detected no write occurs; with change-tracking disabled no filesystem
event occurs at all. -/
theorem persisted_state_effects (email : Bool) (p : String) (fs : Fs)
    (hw : fs.writeOk = true) :
    ((checkDecide email true p fs).2 =
      if changeVerdict fs.content p then [FsEvent.readEv, FsEvent.writeEv p]
      else [FsEvent.readEv]) ∧
    (∃ v, (checkDecide email true p fs).1 = Except.ok v) ∧
    (checkDecide email false p fs).2 = [] := by
  cases hc : changeVerdict fs.content p <;>
    simp [checkDecide, hw, hc]

/-- Witness for `persisted_state_effects`: a changed rendering is read
then written back. -/
theorem persisted_state_effects_witness :
    (checkDecide true true "new" (Fs.mk (some "old") true)).2 =
      [FsEvent.readEv, FsEvent.writeEv "new"] :=
  ((persisted_state_effects true "new" (Fs.mk (some "old") true) rfl).1).trans (by decide)

/-- Claim C9, counterexample: flags and state under which the computed
decision would be to notify (shown by the successful-write run returning
`Ok(Some("p"))`), yet the failed baseline write makes `check` return the
error instead, so the fleet message never reaches the notification — the
decision is NOT attempted, refuting independence of the two effects. -/
theorem write_failure_counterexample :
    (checkDecide true true "p" (Fs.mk none false)).1 = Except.error () ∧
    mainMessages (checkDecide true true "p" (Fs.mk none false)).1 (Except.ok []) = [] ∧
    (checkDecide true true "p" (Fs.mk none true)).1 = Except.ok (some "p") :=
  ⟨rfl, rfl, rfl⟩

/-- Claim C9 (amended): a baseline write failure is fatal and surfaced
(`check` returns the error, which `main` prints), and it suppresses the
fleet notification for that run: the error is returned before the
paragraph, so only the queue contribution can still be dispatched. -/
theorem write_failure_aborts_fleet_check (email : Bool) (p : String) (fs : Fs)
    (qs : List String) (hw : fs.writeOk = false)
    (hc : changeVerdict fs.content p = true) :
    (checkDecide email true p fs).1 = Except.error () ∧
    mainMessages (checkDecide email true p fs).1 (Except.ok qs) = qs := by
  simp [checkDecide, mainMessages, hw, hc]

/-- Witness for `write_failure_aborts_fleet_check`: first run (no prior
baseline), write fails, only the queue warning goes out. -/
theorem write_failure_aborts_fleet_check_witness :
    (checkDecide true true "p" (Fs.mk none false)).1 = Except.error () ∧
    mainMessages (checkDecide true true "p" (Fs.mk none false)).1
      (Except.ok ["WARNING: Queue length is 600"]) = ["WARNING: Queue length is 600"] :=
  write_failure_aborts_fleet_check true "p" (Fs.mk none false)
    ["WARNING: Queue length is 600"] rfl rfl

/-! ### Claims about the status map and correlation (C5, C7) -/

/-- A status record for id `"i-a"` (running, ok, ok). -/
def stA1 : InstanceStatus :=
  { instance_id := some "i-a",
    instance_state := some { name := some StateName.running },
    instance_status := some { status := some SummaryStatus.ok },
    system_status := some { status := some SummaryStatus.ok } }

/-- A status record for id `"i-b"`. -/
def stB : InstanceStatus :=
  { instance_id := some "i-b",
    instance_state := some { name := some StateName.running },
    instance_status := some { status := some SummaryStatus.ok },
    system_status := some { status := some SummaryStatus.ok } }

/-- A second, distinct status record for id `"i-a"` (stopped, impaired). -/
def stA2 : InstanceStatus :=
  { instance_id := some "i-a",
    instance_state := some { name := some StateName.stopped },
    instance_status := some { status := some SummaryStatus.impaired },
    system_status := some { status := some SummaryStatus.ok } }

/-- Claim C5, counterexample: with the non-adjacent duplicate ordering
`[stA1, stB, stA2]` (both `stA1` and `stA2` carry id `"i-a"`), the map
retains the LATER record `stA2`, not the first encountered `stA1`,
refuting the for-every-ordering first-kept claim. -/
theorem duplicate_status_counterexample :
    (describedStatusById [stA1, stB, stA2]).map (fun m => m "i-a") = some (some stA2) ∧
    stA1.instance_id = some "i-a" ∧ stA2.instance_id = some "i-a" ∧ stA2 ≠ stA1 :=
  ⟨rfl, rfl, rfl, by decide⟩

/-- Claim C5 (amended): only ADJACENT duplicate status records keep the
first encountered; duplicates separated by a record with a different id
fall into distinct consecutive groups, and the later group's record
overwrites the earlier one in the collected hash map. -/
theorem duplicate_status_policy (a b : String) (s1 t s2 : InstanceStatus)
    (h1 : s1.instance_id = some a) (h2 : s2.instance_id = some a)
    (ht : t.instance_id = some b) (hab : b ≠ a) :
    (describedStatusById [s1, s2]).map (fun m => m a) = some (some s1) ∧
    (describedStatusById [s1, t, s2]).map (fun m => m a) = some (some s2) := by
  have hba : a ≠ b := fun h => hab h.symm
  constructor
  · simp [describedStatusById, groupFirsts, h1, h2, collectMap]
  · simp [describedStatusById, groupFirsts, h1, h2, ht, hab, hba, collectMap]

/-- Witness for `duplicate_status_policy` on the concrete records. -/
theorem duplicate_status_policy_witness :
    (describedStatusById [stA1, stA2]).map (fun m => m "i-a") = some (some stA1) ∧
    (describedStatusById [stA1, stB, stA2]).map (fun m => m "i-a") = some (some stA2) :=
  duplicate_status_policy "i-a" "i-b" stA1 stB stA2 rfl rfl rfl (by decide)

theorem buildFromInstances_spec (m : String → Option InstanceStatus)
    (insts : List Instance)
    (hids : ∀ inst ∈ insts, (inst.instance_id).isSome = true)
    (hfields : ∀ id s, m id = some s → (s.instance_state).isSome = true ∧
      (s.instance_status).isSome = true ∧ (s.system_status).isSome = true) :
    ∃ l, buildFromInstances m insts = some l ∧
      l.map (fun s => s.id) =
        (insts.filterMap (fun i => i.instance_id)).filter (fun id => (m id).isSome) := by
  induction insts with
  | nil => exact ⟨[], rfl, rfl⟩
  | cons inst rest ih =>
    obtain ⟨id, hid⟩ := Option.isSome_iff_exists.mp
      (hids inst (List.mem_cons_self inst rest))
    obtain ⟨l, hbuild, hmap⟩ := ih (fun i hi => hids i (List.mem_cons_of_mem inst hi))
    cases hm : m id with
    | none =>
      refine ⟨l, ?_, ?_⟩
      · simp [buildFromInstances, hid, hm, hbuild]
      · simp [hid, hm, List.filterMap_cons, List.filter, hmap]
    | some status =>
      obtain ⟨hst, hsu, hsy⟩ := hfields id status hm
      obtain ⟨st, hst'⟩ := Option.isSome_iff_exists.mp hst
      obtain ⟨su, hsu'⟩ := Option.isSome_iff_exists.mp hsu
      obtain ⟨sy, hsy'⟩ := Option.isSome_iff_exists.mp hsy
      refine ⟨{ id := id, tags := inst.tags, state := some st, summary := some su,
                system_summary := some sy } :: l, ?_, ?_⟩
      · simp [buildFromInstances, hid, hm, toServerStatus, hst', hsu', hsy', hbuild]
      · simp [hid, hm, List.filterMap_cons, List.filter, hmap]

/-- Claim C7: the snapshot contains a `ServerStatus` for an id iff the id
occurs among the description records AND the status map has an entry for
it; each matched description record yields exactly one entry, in the
original upstream listing order (reservation order, then instance order);
records present on only one side contribute nothing.  (Hypotheses: ids
present on every description record and all three status fields present
on every mapped status record, otherwise the Rust code panics.) -/
theorem snapshot_correlation (m : String → Option InstanceStatus)
    (resvs : List Reservation)
    (hids : ∀ r ∈ resvs, ∀ inst ∈ r.instances, (inst.instance_id).isSome = true)
    (hfields : ∀ id s, m id = some s → (s.instance_state).isSome = true ∧
      (s.instance_status).isSome = true ∧ (s.system_status).isSome = true) :
    ∃ l, buildServers m resvs = some l ∧
      l.map (fun s => s.id) =
        ((resvs.flatMap (fun r => r.instances)).filterMap
          (fun i => i.instance_id)).filter (fun id => (m id).isSome) ∧
      ∀ id, id ∈ l.map (fun s => s.id) ↔
        (id ∈ (resvs.flatMap (fun r => r.instances)).filterMap (fun i => i.instance_id) ∧
         (m id).isSome = true) := by
  suffices h : ∃ l, buildServers m resvs = some l ∧
      l.map (fun s => s.id) =
        ((resvs.flatMap (fun r => r.instances)).filterMap
          (fun i => i.instance_id)).filter (fun id => (m id).isSome) by
    obtain ⟨l, hb, hmap⟩ := h
    refine ⟨l, hb, hmap, fun id => ?_⟩
    rw [hmap]
    exact List.mem_filter
  induction resvs with
  | nil => exact ⟨[], rfl, rfl⟩
  | cons r rest ih =>
    obtain ⟨a, hba, hmapa⟩ := buildFromInstances_spec m r.instances
      (hids r (List.mem_cons_self r rest)) hfields
    obtain ⟨b, hbb, hmapb⟩ := ih (fun r' hr' => hids r' (List.mem_cons_of_mem r hr'))
    refine ⟨a ++ b, ?_, ?_⟩
    · simp [buildServers, hba, hbb]
    · simp [List.flatMap_cons, List.filterMap_append, List.filter_append, hmapa, hmapb]

/-- Witness for `snapshot_correlation`: one reservation with a matched
(`"i-1"`) and an unmatched (`"i-2"`) instance; only `"i-1"` survives. -/
theorem snapshot_correlation_witness :
    (buildServers (collectMap [("i-1", stA1)])
        [{ instances := [{ instance_id := some "i-1", tags := [] },
                         { instance_id := some "i-2", tags := [] }] }]).map
      (fun l => l.map (fun s => s.id)) = some ["i-1"] := by
  obtain ⟨l, hb, hmap, _⟩ := snapshot_correlation (collectMap [("i-1", stA1)])
    [{ instances := [{ instance_id := some "i-1", tags := [] },
                     { instance_id := some "i-2", tags := [] }] }]
    (by decide)
    (by
      intro id s h
      simp only [collectMap, List.foldl] at h
      by_cases hid : id = "i-1"
      · subst hid
        simp only [if_pos rfl] at h
        cases h
        exact ⟨rfl, rfl, rfl⟩
      · simp only [if_neg hid] at h
        cases h)
  rw [hb, Option.map_some']
  rw [hmap]
  decide
